import Mathlib

/-!
Shallow embedding of `src/backend/python/app/sources/client/workday/workday.py`
(pipeshub-ai). The module defines a Workday REST client (`WorkdayRESTClient`),
a configuration value object (`WorkdayConfig`) and a builder facade
(`WorkdayClient`) with two construction paths: `build_with_config` and the
asynchronous `build_from_services`, which reads a connector configuration from
a configuration service.

Modelling decisions:
- Python exceptions become `Except PyError`; `ValueError msg` models
  `ValueError(msg)`.
- Python dynamic values reaching this module from the configuration service
  are modelled by `PyValue` (absent/None, string, or nested mapping); a dict
  is an association list with first-match lookup (Python dicts have unique
  keys).
- Python truthiness (`if not x`, `x or y`) is `PyValue.truthy` / `pyOr`.
- `str.rstrip('/')` removes ALL trailing `/` characters; `pyRstripSlash`
  mirrors that on the logical `List Char` model of `String`.
- Logging is modelled as an accumulated `List String` of the formatted
  messages (levels are not distinguished); the coroutine in
  `build_from_services` suspends only for the configuration-service fetch,
  so the fetch outcome (`Except PyError (Option PyDict)`) is passed as an
  argument.
-/

/-- A dynamically-typed configuration value as delivered by the Python
configuration service: `None`, a string, or a nested string-keyed mapping. -/
inductive PyValue where
  | none : PyValue
  | str (s : String) : PyValue
  | dict (entries : List (String × PyValue)) : PyValue
deriving Repr

/-- A Python mapping with string keys, as an association list. -/
abbrev PyDict := List (String × PyValue)

/-- Python truthiness of a configuration value: `None` is falsy, a string is
truthy iff non-empty, a dict is truthy iff non-empty. -/
def PyValue.truthy : PyValue → Bool
  | .none => false
  | .str s => !(s == "")
  | .dict d => !d.isEmpty

/-- Python `a or b`: the first operand if truthy, otherwise the second. -/
def pyOr (a b : PyValue) : PyValue :=
  if a.truthy then a else b

/-- Python `d.get(key, default)`: first binding of `key`, else `default`. -/
def dictGet (d : PyDict) (key : String) (default : PyValue) : PyValue :=
  match d.find? (fun p => p.1 = key) with
  | some p => p.2
  | Option.none => default

/-- Python `str()` of a value as used in f-string interpolation.  Only the
string case is exercised by the configuration shapes this module documents;
the dict rendering is not reproduced character-for-character. -/
def PyValue.pystr : PyValue → String
  | .none => "None"
  | .str s => s
  | .dict _ => "\x7b...\x7d"

/-- A raised Python exception: a `ValueError` with its message, or any other
exception identified by its `str()` rendering. -/
inductive PyError where
  | valueError (msg : String) : PyError
  | other (msg : String) : PyError
deriving Repr, DecidableEq

/-- Python `str(e)` for a raised exception (for a `ValueError` this is its message). -/
def PyError.msg : PyError → String
  | .valueError m => m
  | .other m => m

/-- Holds iff the string ends in the character `/`. -/
def hasTrailingSlash (s : String) : Bool :=
  s.data.getLast? = some '/'

/-- Python `s.rstrip('/')`: remove every trailing `/` character. -/
def pyRstripSlash (s : String) : String :=
  ⟨(s.data.reverse.dropWhile (fun c => c = '/')).reverse⟩

/-- The state of a constructed `WorkdayRESTClient`: the stored (normalized)
base URL and the stored token.  The inherited generic HTTP client
(`HTTPClient`, initialized with `(token, "Bearer")`) lives outside this
module and carries no state this module reads back. -/
structure WorkdayRESTClient where
  base_url : String
  token : String
deriving Repr, DecidableEq

/-- Embeds `WorkdayRESTClient.__init__(base_url, token)`: rejects an empty
`base_url` or an empty `token` with a `ValueError`, otherwise stores
`base_url.rstrip('/')` and `token`. -/
def WorkdayRESTClient.build (base_url token : String) :
    Except PyError WorkdayRESTClient :=
  if base_url = "" then
    .error (.valueError "Workday base_url cannot be empty")
  else if token = "" then
    .error (.valueError "Workday token cannot be empty")
  else
    .ok ⟨pyRstripSlash base_url, token⟩

/-- Embeds `WorkdayRESTClient.get_base_url()`: return the stored base URL. -/
def WorkdayRESTClient.get_base_url (c : WorkdayRESTClient) : String :=
  c.base_url

/-- The result of constructing a client from `(u, t)` and immediately reading
its base URL (composition used throughout the observable-behaviour claims). -/
def getBaseUrl? (u t : String) : Except PyError String :=
  (WorkdayRESTClient.build u t).map WorkdayRESTClient.get_base_url

/-- Embeds `WorkdayConfig`: dataclass holding `base_url` and `token`. -/
structure WorkdayConfig where
  base_url : String
  token : String
deriving Repr, DecidableEq

/-- Embeds `WorkdayConfig.create_client()`: construct a `WorkdayRESTClient` from the
config's own fields. -/
def WorkdayConfig.create_client (cfg : WorkdayConfig) :
    Except PyError WorkdayRESTClient :=
  WorkdayRESTClient.build cfg.base_url cfg.token

/-- Embeds `WorkdayConfig.to_dict()`. -/
def WorkdayConfig.to_dict (cfg : WorkdayConfig) : List (String × String) :=
  [("base_url", cfg.base_url), ("token", cfg.token)]

/-- Embeds `WorkdayClient`: builder facade owning exactly one `WorkdayRESTClient`. -/
structure WorkdayClient where
  client : WorkdayRESTClient
deriving Repr, DecidableEq

/-- Embeds `WorkdayClient.get_client()`. -/
def WorkdayClient.get_client (w : WorkdayClient) : WorkdayRESTClient :=
  w.client

/-- Embeds `WorkdayClient.get_base_url()`: delegate to the owned client. -/
def WorkdayClient.get_base_url (w : WorkdayClient) : String :=
  w.client.get_base_url

/-- Embeds `WorkdayClient.build_with_config(config)`: wrap
`config.create_client()`; construction failures propagate. -/
def WorkdayClient.build_with_config (cfg : WorkdayConfig) :
    Except PyError WorkdayClient :=
  (cfg.create_client).map WorkdayClient.mk

/-- Log line of `_get_connector_config`'s handler:
`f"Failed to get Workday connector config: {e}"`. -/
def fetchErrorLog (e : PyError) : String :=
  "Failed to get Workday connector config: " ++ e.msg

/-- Log line of `build_from_services`'s handler:
`f"Failed to build Workday client from services: {e}"`. -/
def buildErrorLog (e : PyError) : String :=
  "Failed to build Workday client from services: " ++ e.msg

/-- Success log line of `build_from_services`:
`f"Successfully created Workday client with {auth_type} authentication"`. -/
def successLog (auth_type : PyValue) : String :=
  "Successfully created Workday client with " ++ auth_type.pystr
    ++ " authentication"

/-- Embeds `WorkdayClient._get_connector_config`: await the configuration-service
fetch for the fixed path `"/services/connectors/workday/config"`; on success
return `config or {}` (so an absent configuration becomes the empty mapping);
if the fetch raises, log the error and re-raise the same exception.  The
fetch outcome is the argument. -/
def WorkdayClient.get_connector_config
    (fetch : Except PyError (Option PyDict)) :
    Except PyError PyDict × List String :=
  match fetch with
  | .ok config => (.ok (config.getD []), [])
  | .error e => (.error e, [fetchErrorLog e])

/-- Embeds the local `auth_type = auth_config.get("authType", "TOKEN")`. -/
def resolveAuthType (auth_config : PyDict) : PyValue :=
  dictGet auth_config "authType" (.str "TOKEN")

/-- Embeds the local `token = auth_config.get("token") or auth_config.get("accessToken") or
auth_config.get("access_token")` (Python `or` associates to the left). -/
def resolveToken (auth_config : PyDict) : PyValue :=
  pyOr (pyOr (dictGet auth_config "token" .none)
             (dictGet auth_config "accessToken" .none))
       (dictGet auth_config "access_token" .none)

/-- The body of `build_from_services`'s `try` block after the configuration
has been fetched: the validation sequence, client construction and success
log.  A raised `ValueError` appears as `.error`; paths where Python's dynamic
typing would pass a truthy non-mapping as `auth` to `.get`, or a truthy
non-string to `WorkdayRESTClient`, are modelled as non-`ValueError` errors
(no documented configuration shape reaches them). -/
def WorkdayClient.buildBody (config : PyDict) :
    Except PyError WorkdayClient × List String :=
  -- `if not config:`
  if config.isEmpty then
    (.error (.valueError "Failed to get Workday connector configuration"), [])
  -- the local `auth_config = config.get("auth", {}) or {}` is written out in
  -- full at each of its uses below; likewise `base_url` and `token`
  else if (pyOr (dictGet config "auth" (.dict [])) (.dict [])).truthy
      = false then
    (.error (.valueError
      "Auth configuration not found in Workday connector configuration"), [])
  -- `base_url = config.get("base_url") or config.get("baseUrl")`
  else if (pyOr (dictGet config "base_url" .none)
               (dictGet config "baseUrl" .none)).truthy = false then
    (.error (.valueError
      "Base URL not found in Workday connector configuration"), [])
  else
    match pyOr (dictGet config "auth" (.dict [])) (.dict []) with
    | .dict a =>
      if (resolveToken a).truthy = false then
        (.error (.valueError ("Token/access token required for "
          ++ (resolveAuthType a).pystr ++ " auth type")), [])
      else
        match pyOr (dictGet config "base_url" .none)
                   (dictGet config "baseUrl" .none), resolveToken a with
        | .str bu, .str tk =>
          match WorkdayRESTClient.build bu tk with
          | .error e => (.error e, [])
          | .ok c => (.ok ⟨c⟩, [successLog (resolveAuthType a)])
        | _, _ =>
          (.error (.other
            "non-string truthy value passed to WorkdayRESTClient"), [])
    | _ =>
      (.error (.other "AttributeError: truthy non-mapping auth value"), [])

/-- Embeds `WorkdayClient.build_from_services(logger, config_service)`: fetch the
connector configuration (via `_get_connector_config`), run the validation
sequence, and either return the facade or log
`f"Failed to build Workday client from services: {e}"` and re-raise the same
exception.  Returns the outcome paired with the log lines emitted. -/
def WorkdayClient.build_from_services
    (fetch : Except PyError (Option PyDict)) :
    Except PyError WorkdayClient × List String :=
  match WorkdayClient.get_connector_config fetch with
  | (.error e, logs) => (.error e, logs ++ [buildErrorLog e])
  | (.ok config, logs) =>
    match WorkdayClient.buildBody config with
    | (.error e, logs2) => (.error e, logs ++ logs2 ++ [buildErrorLog e])
    | (.ok c, logs2) => (.ok c, logs ++ logs2)

/-- The spec's description of normalization, stated literally: strip exactly
one trailing `/` when present, otherwise leave the string unchanged.  Used
only to compare the spec's words with the source's `rstrip('/')`. -/
def stripOneTrailingSlash (s : String) : String :=
  if hasTrailingSlash s then ⟨s.data.dropLast⟩ else s

/-! ### Helper lemmas -/

/-- The first element surviving `dropWhile p` fails `p`. -/
theorem head?_dropWhile_false {p : Char → Bool} :
    ∀ (l : List Char) (c : Char), (l.dropWhile p).head? = some c →
      p c = false := by
  intro l
  induction l with
  | nil => intro c h; simp [List.dropWhile] at h
  | cons a t ih =>
    intro c h
    cases hp : p a with
    | true =>
      rw [List.dropWhile_cons_of_pos hp] at h
      exact ih c h
    | false =>
      rw [List.dropWhile_cons_of_neg (by simp [hp])] at h
      simp only [List.head?_cons, Option.some.injEq] at h
      exact h ▸ hp

/-- The result of `rstrip('/')` never ends in `/`. -/
theorem pyRstripSlash_no_trailing (s : String) :
    hasTrailingSlash (pyRstripSlash s) = false := by
  have h1 : (pyRstripSlash s).data
      = (s.data.reverse.dropWhile (fun c => c = '/')).reverse := rfl
  unfold hasTrailingSlash
  rw [h1, List.getLast?_reverse]
  apply decide_eq_false
  intro h
  have h2 := head?_dropWhile_false _ _ h
  simp at h2

/-- `rstrip('/')` leaves a string with no trailing `/` unchanged. -/
theorem pyRstripSlash_eq_self (s : String) (h : hasTrailingSlash s = false) :
    pyRstripSlash s = s := by
  apply String.ext
  show (s.data.reverse.dropWhile (fun c => c = '/')).reverse = s.data
  unfold hasTrailingSlash at h
  have h' : s.data.getLast? ≠ some '/' := of_decide_eq_false h
  cases hr : s.data.reverse with
  | nil =>
    have hd : s.data = [] := by
      have := congrArg List.reverse hr
      simpa using this
    simp [hr, hd]
  | cons a t =>
    have hlast : s.data.getLast? = some a := by
      rw [← List.head?_reverse, hr]
      rfl
    have ha : a ≠ '/' := by
      intro hc
      exact h' (by rw [hlast, hc])
    rw [List.dropWhile_cons_of_neg (by simpa using ha), ← hr,
      List.reverse_reverse]

/-- `rstrip('/')` is idempotent. -/
theorem pyRstripSlash_idem (s : String) :
    pyRstripSlash (pyRstripSlash s) = pyRstripSlash s :=
  pyRstripSlash_eq_self _ (pyRstripSlash_no_trailing s)

/-- Construction from non-empty arguments succeeds and stores the
`rstrip`-normalized base URL and the token. -/
theorem build_ok (u t : String) (hu : u ≠ "") (ht : t ≠ "") :
    WorkdayRESTClient.build u t = .ok ⟨pyRstripSlash u, t⟩ := by
  unfold WorkdayRESTClient.build
  rw [if_neg hu, if_neg ht]

/-- Any successfully constructed client has no trailing slash in its stored
base URL and a non-empty token. -/
theorem build_invariant (u t : String) (c : WorkdayRESTClient)
    (h : WorkdayRESTClient.build u t = .ok c) :
    hasTrailingSlash c.base_url = false ∧ c.token ≠ "" := by
  unfold WorkdayRESTClient.build at h
  by_cases hu : u = ""
  · rw [if_pos hu] at h
    exact Except.noConfusion h
  · rw [if_neg hu] at h
    by_cases ht : t = ""
    · rw [if_pos ht] at h
      exact Except.noConfusion h
    · rw [if_neg ht] at h
      have hc : (⟨pyRstripSlash u, t⟩ : WorkdayRESTClient) = c :=
        Except.ok.inj h
      subst hc
      exact ⟨pyRstripSlash_no_trailing u, ht⟩

/-- A pair whose first component is an `error` is never a pair whose first
component is an `ok`. -/
theorem pair_error_ne_ok {e : PyError} {wc : WorkdayClient}
    {l1 l2 : List String}
    (h : ((Except.error e : Except PyError WorkdayClient), l1)
      = (Except.ok wc, l2)) : False :=
  Except.noConfusion (congrArg Prod.fst h)

/-- Python `a or b` when `a` is truthy. -/
theorem pyOr_pos {a : PyValue} (b : PyValue) (h : a.truthy = true) :
    pyOr a b = a := by
  unfold pyOr
  rw [if_pos h]

/-- Python `a or b` when `a` is falsy. -/
theorem pyOr_neg {a : PyValue} (b : PyValue) (h : a.truthy = false) :
    pyOr a b = b := by
  unfold pyOr
  rw [if_neg (by simp [h])]

/-! ### Claims -/

/-- C1: for every pair of strings with `base_url` empty or `token` empty,
`WorkdayRESTClient` construction raises a `ValueError` (the module's
`InvalidArgument` condition) and no client is produced. -/
theorem c1_empty_args_rejected (u t : String) (h : u = "" ∨ t = "") :
    WorkdayRESTClient.build u t
      = .error (.valueError
          (if u = "" then "Workday base_url cannot be empty"
           else "Workday token cannot be empty")) := by
  unfold WorkdayRESTClient.build
  rcases h with h | h
  · simp [h]
  · by_cases hu : u = ""
    · simp [hu]
    · simp [hu, h]

/-- Witness for C1 at `base_url = ""`, `token = "tok"`. -/
theorem c1_empty_args_rejected_witness :
    WorkdayRESTClient.build "" "tok"
      = .error (.valueError
          (if ("" : String) = "" then "Workday base_url cannot be empty"
           else "Workday token cannot be empty")) :=
  c1_empty_args_rejected "" "tok" (Or.inl rfl)

/-- C2 counterexample: for `base_url = "a//"`, `token = "t"`, the code strips
BOTH trailing slashes and returns `"a"`, while stripping exactly one
trailing slash (the claim's words, `stripOneTrailingSlash`) would give
`"a/"`. -/
theorem c2_counterexample :
    getBaseUrl? "a//" "t" = .ok "a"
    ∧ stripOneTrailingSlash "a//" = "a/"
    ∧ ("a" : String) ≠ "a/" := by
  refine ⟨rfl, rfl, by decide⟩

/-- C2 (amended): for every non-empty `base_url` and non-empty `token`,
construction succeeds and `get_base_url()` returns `base_url` with ALL
trailing `/` characters stripped; in particular the result never ends in
`/`, and a `base_url` with no trailing `/` is returned unchanged. -/
theorem c2_base_url_normalization (u t : String) (hu : u ≠ "") (ht : t ≠ "") :
    getBaseUrl? u t = .ok (pyRstripSlash u)
    ∧ hasTrailingSlash (pyRstripSlash u) = false
    ∧ (hasTrailingSlash u = false → pyRstripSlash u = u) := by
  refine ⟨?_, pyRstripSlash_no_trailing u, fun h => pyRstripSlash_eq_self u h⟩
  unfold getBaseUrl?
  rw [build_ok u t hu ht]
  rfl

/-- Witness for C2 (amended) at `base_url = "a/"`, `token = "t"`. -/
theorem c2_base_url_normalization_witness :
    getBaseUrl? "a/" "t" = .ok (pyRstripSlash "a/")
    ∧ hasTrailingSlash (pyRstripSlash "a/") = false
    ∧ (hasTrailingSlash "a/" = false → pyRstripSlash "a/" = "a/") :=
  c2_base_url_normalization "a/" "t" (by decide) (by decide)

/-- C6: when the configuration-service fetch raises, `build_from_services`
logs the error (once in `_get_connector_config`, once in its own handler)
and propagates exactly the same exception; an error outcome carries no
client. -/
theorem c6_fetch_error_propagates (e : PyError) :
    WorkdayClient.build_from_services (.error e)
      = (.error e, [fetchErrorLog e, buildErrorLog e]) := rfl

/-- C7: `WorkdayConfig(u, t).create_client()` is the same computation as
constructing `WorkdayRESTClient(u, t)` directly — identical failures and,
via `map get_base_url`, identical observable base URLs. -/
theorem c7_create_client_equiv (u t : String) :
    (WorkdayConfig.mk u t).create_client = WorkdayRESTClient.build u t
    ∧ ((WorkdayConfig.mk u t).create_client).map WorkdayRESTClient.get_base_url
        = getBaseUrl? u t :=
  ⟨rfl, rfl⟩

/-- C8: normalization is idempotent — when construction from `(u, t)`
succeeds and yields a non-empty base URL, re-constructing from that base URL
and the same token succeeds and yields the same base URL. -/
theorem c8_normalization_idempotent (u t : String) (hu : u ≠ "")
    (ht : t ≠ "") (h2 : pyRstripSlash u ≠ "") :
    getBaseUrl? u t = .ok (pyRstripSlash u)
    ∧ getBaseUrl? (pyRstripSlash u) t = .ok (pyRstripSlash u) := by
  constructor
  · unfold getBaseUrl?
    rw [build_ok u t hu ht]
    rfl
  · unfold getBaseUrl?
    rw [build_ok _ t h2 ht, pyRstripSlash_idem]
    rfl

/-- Witness for C8 at `base_url = "a/"`, `token = "t"`. -/
theorem c8_normalization_idempotent_witness :
    getBaseUrl? "a/" "t" = .ok (pyRstripSlash "a/")
    ∧ getBaseUrl? (pyRstripSlash "a/") "t" = .ok (pyRstripSlash "a/") :=
  c8_normalization_idempotent "a/" "t" (by decide) (by decide) (by decide)

/-- C9: a `base_url` made of `n ≥ 1` slashes is non-empty, so construction
succeeds, yet the stored base URL is the empty string. -/
theorem c9_slash_only_base_url (n : Nat) (t : String) (hn : n ≠ 0)
    (ht : t ≠ "") :
    String.mk (List.replicate n '/') ≠ ""
    ∧ getBaseUrl? (String.mk (List.replicate n '/')) t = .ok "" := by
  have hne : String.mk (List.replicate n '/') ≠ "" := by
    intro h
    cases n with
    | zero => exact hn rfl
    | succ m =>
      have hd : List.replicate (m + 1) '/' = ([] : List Char) :=
        congrArg String.data h
      simp [List.replicate_succ] at hd
  refine ⟨hne, ?_⟩
  unfold getBaseUrl?
  rw [build_ok _ t hne ht]
  have hstrip : pyRstripSlash (String.mk (List.replicate n '/')) = "" := by
    apply String.ext
    show ((List.replicate n '/').reverse.dropWhile
        (fun c => c = '/')).reverse = []
    rw [List.reverse_replicate]
    simp [List.dropWhile_replicate]
  rw [hstrip]
  rfl

/-- Witness for C9 at `base_url = "///"`, `token = "t"`. -/
theorem c9_slash_only_base_url_witness :
    String.mk (List.replicate 3 '/') ≠ ""
    ∧ getBaseUrl? (String.mk (List.replicate 3 '/')) "t" = .ok "" :=
  c9_slash_only_base_url 3 "t" (by decide) (by decide)

/-- Any `ok` outcome of the validation/construction body wraps a client with
no trailing slash in its base URL and a non-empty token. -/
theorem buildBody_invariant (config : PyDict) (wc : WorkdayClient)
    (logs : List String)
    (h : WorkdayClient.buildBody config = (.ok wc, logs)) :
    hasTrailingSlash wc.client.base_url = false ∧ wc.client.token ≠ "" := by
  unfold WorkdayClient.buildBody at h
  split at h
  all_goals try exact (pair_error_ne_ok h).elim
  split at h
  all_goals try exact (pair_error_ne_ok h).elim
  split at h
  all_goals try exact (pair_error_ne_ok h).elim
  split at h
  all_goals try exact (pair_error_ne_ok h).elim
  split at h
  all_goals try exact (pair_error_ne_ok h).elim
  split at h
  all_goals try exact (pair_error_ne_ok h).elim
  split at h
  all_goals try exact (pair_error_ne_ok h).elim
  rename_i c heq
  have hwc : WorkdayClient.mk c = wc := Except.ok.inj (congrArg Prod.fst h)
  subst hwc
  exact build_invariant _ _ c heq

/-- C3: every construction path — direct construction,
`WorkdayConfig.create_client`, `WorkdayClient.build_with_config`, and
`WorkdayClient.build_from_services` — yields only clients whose stored base
URL has no trailing slash and whose stored token is non-empty. -/
theorem c3_client_invariant :
    (∀ (u t : String) (c : WorkdayRESTClient),
        WorkdayRESTClient.build u t = .ok c →
        hasTrailingSlash c.base_url = false ∧ c.token ≠ "")
    ∧ (∀ (cfg : WorkdayConfig) (c : WorkdayRESTClient),
        cfg.create_client = .ok c →
        hasTrailingSlash c.base_url = false ∧ c.token ≠ "")
    ∧ (∀ (cfg : WorkdayConfig) (w : WorkdayClient),
        WorkdayClient.build_with_config cfg = .ok w →
        hasTrailingSlash w.client.base_url = false ∧ w.client.token ≠ "")
    ∧ (∀ (fetch : Except PyError (Option PyDict)) (w : WorkdayClient)
          (logs : List String),
        WorkdayClient.build_from_services fetch = (.ok w, logs) →
        hasTrailingSlash w.client.base_url = false ∧ w.client.token ≠ "") := by
  refine ⟨build_invariant, ?_, ?_, ?_⟩
  · intro cfg c h
    exact build_invariant cfg.base_url cfg.token c h
  · intro cfg w h
    unfold WorkdayClient.build_with_config at h
    rcases hcc : cfg.create_client with e | c
    · rw [hcc] at h
      exact Except.noConfusion h
    · rw [hcc] at h
      have hw : WorkdayClient.mk c = w := Except.ok.inj h
      subst hw
      exact build_invariant cfg.base_url cfg.token c hcc
  · intro fetch w logs h
    unfold WorkdayClient.build_from_services at h
    split at h
    · exact (pair_error_ne_ok h).elim
    split at h
    · exact (pair_error_ne_ok h).elim
    rename_i x1 config lg hg x2 w2 lg2 hb
    have hw : w2 = w := Except.ok.inj (congrArg Prod.fst h)
    subst hw
    exact buildBody_invariant config w2 lg2 hb

/-- Witness for C3, first conjunct, at `base_url = "a/"`, `token = "t"`. -/
theorem c3_client_invariant_witness :
    hasTrailingSlash (WorkdayRESTClient.mk "a" "t").base_url = false
    ∧ (WorkdayRESTClient.mk "a" "t").token ≠ "" :=
  c3_client_invariant.1 "a/" "t" ⟨"a", "t"⟩ (by rfl)

/-- C5: the validation checks of `build_from_services` run in a fixed order
with fixed messages: an empty or absent fetched configuration fails first
(with the exact message "Failed to get Workday connector configuration");
otherwise a falsy `auth` entry fails next (message beginning "Auth
configuration not found"), before any base-URL key is examined; otherwise a
configuration whose `base_url`/`baseUrl` resolution is falsy fails (message
beginning "Base URL not found"). -/
theorem c5_validation_order :
    ((WorkdayClient.build_from_services (.ok Option.none)).1
      = .error (.valueError "Failed to get Workday connector configuration"))
    ∧ ((WorkdayClient.build_from_services (.ok (Option.some []))).1
      = .error (.valueError "Failed to get Workday connector configuration"))
    ∧ (∀ cfg : PyDict, cfg.isEmpty = false →
        (pyOr (dictGet cfg "auth" (.dict [])) (.dict [])).truthy = false →
        (WorkdayClient.build_from_services (.ok (Option.some cfg))).1
          = .error (.valueError
            "Auth configuration not found in Workday connector configuration"))
    ∧ (∀ cfg : PyDict, cfg.isEmpty = false →
        (pyOr (dictGet cfg "auth" (.dict [])) (.dict [])).truthy = true →
        (pyOr (dictGet cfg "base_url" PyValue.none)
            (dictGet cfg "baseUrl" PyValue.none)).truthy = false →
        (WorkdayClient.build_from_services (.ok (Option.some cfg))).1
          = .error (.valueError
            "Base URL not found in Workday connector configuration")) := by
  refine ⟨rfl, rfl, ?_, ?_⟩
  · intro cfg h1 h2
    have hb : WorkdayClient.buildBody cfg
        = (.error (.valueError
            "Auth configuration not found in Workday connector configuration"),
          []) := by
      unfold WorkdayClient.buildBody
      rw [if_neg (by simp [h1]), if_pos h2]
    simp [WorkdayClient.build_from_services,
      WorkdayClient.get_connector_config, hb]
  · intro cfg h1 h2 h3
    have hb : WorkdayClient.buildBody cfg
        = (.error (.valueError
            "Base URL not found in Workday connector configuration"), []) := by
      unfold WorkdayClient.buildBody
      rw [if_neg (by simp [h1]), if_neg (by simp [h2]), if_pos h3]
    simp [WorkdayClient.build_from_services,
      WorkdayClient.get_connector_config, hb]

/-- Witness for C5: a configuration carrying a base URL but an empty `auth`
mapping fails with the auth message (auth is checked before the base URL). -/
theorem c5_validation_order_witness :
    (WorkdayClient.build_from_services (.ok (Option.some
        [("base_url", PyValue.str "b"), ("auth", PyValue.dict [])]))).1
      = .error (.valueError
          "Auth configuration not found in Workday connector configuration") :=
  c5_validation_order.2.2.1
    [("base_url", PyValue.str "b"), ("auth", PyValue.dict [])] rfl rfl

/-- C4: the token is resolved by trying the keys `token`, `accessToken`,
`access_token` in that order, taking the first truthy (non-empty) value;
`authType` defaults to `"TOKEN"` when absent; when no candidate key yields a
truthy value the build fails with a `ValueError` naming the auth type; when
the resolution yields a non-empty string it is exactly the token stored in
the constructed client. -/
theorem c4_token_resolution :
    (∀ a : PyDict, (dictGet a "token" PyValue.none).truthy = true →
        resolveToken a = dictGet a "token" PyValue.none)
    ∧ (∀ a : PyDict, (dictGet a "token" PyValue.none).truthy = false →
        (dictGet a "accessToken" PyValue.none).truthy = true →
        resolveToken a = dictGet a "accessToken" PyValue.none)
    ∧ (∀ a : PyDict, (dictGet a "token" PyValue.none).truthy = false →
        (dictGet a "accessToken" PyValue.none).truthy = false →
        resolveToken a = dictGet a "access_token" PyValue.none)
    ∧ (∀ a : PyDict, a.find? (fun p => p.1 = "authType") = Option.none →
        resolveAuthType a = .str "TOKEN")
    ∧ (∀ (cfg a : PyDict), cfg.isEmpty = false →
        pyOr (dictGet cfg "auth" (.dict [])) (.dict []) = .dict a →
        a.isEmpty = false →
        (pyOr (dictGet cfg "base_url" PyValue.none)
            (dictGet cfg "baseUrl" PyValue.none)).truthy = true →
        (resolveToken a).truthy = false →
        (WorkdayClient.build_from_services (.ok (Option.some cfg))).1
          = .error (.valueError ("Token/access token required for "
              ++ (resolveAuthType a).pystr ++ " auth type")))
    ∧ (∀ (cfg a : PyDict) (bu t : String), cfg.isEmpty = false →
        pyOr (dictGet cfg "auth" (.dict [])) (.dict []) = .dict a →
        a.isEmpty = false →
        pyOr (dictGet cfg "base_url" PyValue.none)
            (dictGet cfg "baseUrl" PyValue.none) = .str bu →
        bu ≠ "" →
        resolveToken a = .str t → t ≠ "" →
        (WorkdayClient.build_from_services (.ok (Option.some cfg))).1
          = .ok ⟨⟨pyRstripSlash bu, t⟩⟩) := by
  refine ⟨?_, ?_, ?_, ?_, ?_, ?_⟩
  · intro a h
    unfold resolveToken
    rw [pyOr_pos _ h, pyOr_pos _ h]
  · intro a h1 h2
    unfold resolveToken
    rw [pyOr_neg _ h1, pyOr_pos _ h2]
  · intro a h1 h2
    unfold resolveToken
    rw [pyOr_neg _ h1, pyOr_neg _ h2]
  · intro a h
    unfold resolveAuthType dictGet
    rw [h]
  · intro cfg a hne hauth ha hbu htk
    have hb : WorkdayClient.buildBody cfg
        = (.error (.valueError ("Token/access token required for "
            ++ (resolveAuthType a).pystr ++ " auth type")), []) := by
      unfold WorkdayClient.buildBody
      rw [hauth]
      rw [if_neg (by simp [hne]),
        if_neg (by simp [PyValue.truthy, ha]),
        if_neg (by simp [hbu])]
      simp [htk]
    simp [WorkdayClient.build_from_services,
      WorkdayClient.get_connector_config, hb]
  · intro cfg a bu t hne hauth ha hbu hbu_ne htk ht_ne
    have hb : WorkdayClient.buildBody cfg
        = (.ok ⟨⟨pyRstripSlash bu, t⟩⟩,
           [successLog (resolveAuthType a)]) := by
      unfold WorkdayClient.buildBody
      rw [hauth, hbu]
      rw [if_neg (by simp [hne]),
        if_neg (by simp [PyValue.truthy, ha]),
        if_neg (by simp [PyValue.truthy, hbu_ne])]
      simp [htk, PyValue.truthy, ht_ne, build_ok bu t hbu_ne ht_ne]
    simp [WorkdayClient.build_from_services,
      WorkdayClient.get_connector_config, hb]

/-- Witness for C4: an auth mapping with `authType = "OAUTH"` and no token
key fails with the message naming `OAUTH`. -/
theorem c4_token_resolution_witness :
    (WorkdayClient.build_from_services (.ok (Option.some
        [("base_url", PyValue.str "b"),
         ("auth", PyValue.dict [("authType", PyValue.str "OAUTH")])]))).1
      = .error (.valueError ("Token/access token required for "
          ++ (resolveAuthType [("authType", PyValue.str "OAUTH")]).pystr
          ++ " auth type")) :=
  c4_token_resolution.2.2.2.2.1
    [("base_url", PyValue.str "b"),
     ("auth", PyValue.dict [("authType", PyValue.str "OAUTH")])]
    [("authType", PyValue.str "OAUTH")] rfl rfl rfl rfl rfl

/-- C10: a `base_url`/`baseUrl` key whose value is falsy (empty string or
`None`) is treated exactly as an absent key: the build fails with the
"Base URL not found" configuration error instead of constructing a client. -/
theorem c10_falsy_base_url (cfg a : PyDict)
    (hne : cfg.isEmpty = false)
    (hauth : dictGet cfg "auth" (.dict []) = .dict a)
    (ha : a.isEmpty = false)
    (h1 : (dictGet cfg "base_url" PyValue.none).truthy = false)
    (h2 : (dictGet cfg "baseUrl" PyValue.none).truthy = false) :
    (WorkdayClient.build_from_services (.ok (Option.some cfg))).1
      = .error (.valueError
          "Base URL not found in Workday connector configuration") := by
  have hb : WorkdayClient.buildBody cfg
      = (.error (.valueError
          "Base URL not found in Workday connector configuration"), []) := by
    unfold WorkdayClient.buildBody
    rw [hauth, pyOr_pos _ (by simp [PyValue.truthy, ha]), pyOr_neg _ h1]
    rw [if_neg (by simp [hne]),
      if_neg (by simp [PyValue.truthy, ha]),
      if_pos h2]
  simp [WorkdayClient.build_from_services,
    WorkdayClient.get_connector_config, hb]

/-- Witness for C10: `base_url` present but empty, `baseUrl` present but
`None`, with a valid auth block — the build still reports a missing base
URL. -/
theorem c10_falsy_base_url_witness :
    (WorkdayClient.build_from_services (.ok (Option.some
        [("base_url", PyValue.str ""), ("baseUrl", PyValue.none),
         ("auth", PyValue.dict [("token", PyValue.str "x")])]))).1
      = .error (.valueError
          "Base URL not found in Workday connector configuration") :=
  c10_falsy_base_url
    [("base_url", PyValue.str ""), ("baseUrl", PyValue.none),
     ("auth", PyValue.dict [("token", PyValue.str "x")])]
    [("token", PyValue.str "x")] rfl rfl rfl rfl rfl
